import Mathlib

/-!
Verification development for the Travel Magazine backend (`server.js`):
a shallow embedding of the validation layer, the registration CRUD
handlers, the admin login, and the schema initialisation, together with
theorems about the spec's claims.

JavaScript values relevant to the API are modelled by `JVal`; JS numbers
are modelled as `Option ℚ`, with `none` playing the role of `NaN`
(the only non-finite value the modelled code paths can produce from the
inputs the claims range over; `Infinity` and exotic coercions such as
hexadecimal or exponent-free `Infinity` literals do not arise in them).
-/

namespace TravelMagazine

/-- A JavaScript number: `none` is `NaN`, `some q` a finite value. -/
abbrev JNum := Option ℚ

/-- A JavaScript value as it can appear in a parsed JSON request field. -/
inductive JVal where
  | undef : JVal
  | null : JVal
  | bool : Bool → JVal
  | num : JNum → JVal
  | str : String → JVal
deriving DecidableEq, Repr

/-- JavaScript truthiness: `undefined`, `null`, `false`, `NaN`, `0` and
`""` are falsy, everything else in the model is truthy. -/
def truthy : JVal → Bool
  | .undef => false
  | .null => false
  | .bool b => b
  | .num none => false
  | .num (some q) => q != 0
  | .str s => s != ""

/-- `v.length < 2` in JavaScript: only strings have a numeric `length`
in the model; for other values `.length` is `undefined` and
`undefined < 2` is `false`. -/
def lenLt2 : JVal → Bool
  | .str s => s.length < 2
  | _ => false

/-- `String(v).includes("@")`: only a string can contain `'@'` — the
string coercions of `undefined`, `null`, booleans and numbers never
contain an `'@'` character. -/
def includesAt : JVal → Bool
  | .str s => s.data.any (fun c => c == '@')
  | _ => false

/-- Whitespace trimmed by JavaScript's `Number(string)` coercion
(the common ASCII whitespace characters). -/
def isJsWs (c : Char) : Bool :=
  c == ' ' || c == '\t' || c == '\n' || c == '\r'

/-- Consume leading decimal digits: returns their value, how many there
were, and the rest of the input. -/
def parseDigits : List Char → Nat → Nat → Nat × Nat × List Char
  | c :: rest, acc, n =>
      if c.isDigit then parseDigits rest (acc * 10 + (c.toNat - 48)) (n + 1)
      else (acc, n, c :: rest)
  | [], acc, n => (acc, n, [])

/-- Parse an optional sign, returning whether it was negative and the rest. -/
def parseSign : List Char → Bool × List Char
  | '+' :: rest => (false, rest)
  | '-' :: rest => (true, rest)
  | l => (false, l)

/-- Parse the body of a decimal numeric literal (after trimming and after
the optional sign): digits, an optional fraction, an optional exponent.
Returns the value as a numerator/denominator pair of naturals, or `none`
when the input is not such a literal. -/
def parseDecimal (l : List Char) : Option (Nat × Nat) :=
  let (ip, ni, r1) := parseDigits l 0 0
  let (fp, nf, r2) :=
    match r1 with
    | '.' :: rest => parseDigits rest 0 0
    | _ => (0, 0, r1)
  if ni + nf == 0 then none
  else
    let mantNum : Nat := ip * 10 ^ nf + fp
    let mantDen : Nat := 10 ^ nf
    match r2 with
    | [] => some (mantNum, mantDen)
    | 'e' :: rest =>
        let (eneg, r3) := parseSign rest
        let (ev, ne, r4) := parseDigits r3 0 0
        if ne == 0 || !r4.isEmpty then none
        else if eneg then some (mantNum, mantDen * 10 ^ ev)
        else some (mantNum * 10 ^ ev, mantDen)
    | 'E' :: rest =>
        let (eneg, r3) := parseSign rest
        let (ev, ne, r4) := parseDigits r3 0 0
        if ne == 0 || !r4.isEmpty then none
        else if eneg then some (mantNum, mantDen * 10 ^ ev)
        else some (mantNum * 10 ^ ev, mantDen)
    | _ => none

/-- JavaScript's `Number(string)` on decimal inputs: trim whitespace,
empty string is `0`, otherwise an optional sign followed by a decimal
literal, and anything else is `NaN`. -/
def strToNumber (s : String) : JNum :=
  let l := (s.data.dropWhile isJsWs).reverse.dropWhile isJsWs |>.reverse
  if l.isEmpty then some 0
  else
    let (neg, l1) := parseSign l
    match parseDecimal l1 with
    | none => none
    | some (n, d) => some (mkRat (if neg then -(n : Int) else (n : Int)) d)

/-- JavaScript's `Number(v)` coercion. -/
def jsNumber : JVal → JNum
  | .undef => none
  | .null => some 0
  | .bool b => some (if b then 1 else 0)
  | .num n => n
  | .str s => strToNumber s

/-- `Number.isInteger(n)`: finite and integral. -/
def isInteger : JNum → Bool
  | none => false
  | some q => q.den == 1

/-- `phoneRegex.test(s)` for `/^\+\d{1,3}-\d{3}-\d{3}-\d{4}$/`:
a `'+'`, then dash-separated digit groups of sizes 1–3, 3, 3 and 4. -/
def splitDash : List Char → List (List Char)
  | [] => [[]]
  | '-' :: rest => [] :: splitDash rest
  | c :: rest =>
      match splitDash rest with
      | g :: gs => (c :: g) :: gs
      | [] => [[c]]

/-- A digit group of length between `lo` and `hi`. -/
def digitGroup (lo hi : Nat) (g : List Char) : Bool :=
  g.all Char.isDigit && lo ≤ g.length && g.length ≤ hi

/-- The phone pattern `^\+\d{1,3}-\d{3}-\d{3}-\d{4}$` from `server.js`. -/
def phoneMatch (s : String) : Bool :=
  match s.data with
  | '+' :: rest =>
      match splitDash rest with
      | [g1, g2, g3, g4] =>
          digitGroup 1 3 g1 && digitGroup 3 3 g2 && digitGroup 3 3 g3 && digitGroup 4 4 g4
      | _ => false
  | _ => false

/-- `phoneRegex.test(phone || "")`: a falsy `phone` tests the empty
string, which never matches; a truthy non-string coerces to a string that
never starts with `'+'` (JS number and boolean string forms cannot),
so only a string argument can match. -/
def phoneTest : JVal → Bool
  | .str s => phoneMatch s
  | _ => false

/-! ## Validation layer

Each `...Fail` definition is the condition of one `if` in
`validateRegistration` in `server.js`. -/

/-- `!fullName || fullName.length < 2` (also the `city` check's shape). -/
def nameFail (v : JVal) : Bool := !truthy v || lenLt2 v

/-- `!sex` (and `!destination`, `!travelTime`: presence checks). -/
def presenceFail (v : JVal) : Bool := !truthy v

/-- `!phoneRegex.test(phone || "")`. -/
def phoneFail (v : JVal) : Bool := !phoneTest v

/-- `!email || !String(email).includes("@")`. -/
def emailFail (v : JVal) : Bool := !truthy v || !includesAt v

/-- `Number(persons)` is an integer between 1 and 20:
`!Number.isInteger(n) || n < 1 || n > 20` negated. When the integrality
check passes the value equals its numerator, so the bounds are compared
on `q.num`. -/
def personsOk (n : JNum) : Bool :=
  match n with
  | none => false
  | some q => q.den == 1 && 1 ≤ q.num && q.num ≤ 20

/-- `!Number.isInteger(personsNumber) || personsNumber < 1 || personsNumber > 20`
(NaN comparisons are false, so the `isInteger` disjunct alone rejects NaN). -/
def personsFail (v : JVal) : Bool := !personsOk (jsNumber v)

/-- A registration payload as destructured by `validateRegistration`. -/
structure Payload where
  fullName : JVal
  sex : JVal
  phone : JVal
  email : JVal
  destination : JVal
  city : JVal
  persons : JVal
  travelTime : JVal
  message : JVal
deriving DecidableEq, Repr

/-- `validateRegistration(payload)` from `server.js`: returns the first
failing rule's message, or `none` when all checks pass. The `Option`
argument models `!payload` (a missing or `null` body). -/
def validateRegistration : Option Payload → Option String
  | none => some "Missing registration data."
  | some p =>
      if nameFail p.fullName then some "Full name is required."
      else if presenceFail p.sex then some "Sex is required."
      else if phoneFail p.phone then some "Phone must match +234-801-234-5678 format."
      else if emailFail p.email then some "Email is required."
      else if presenceFail p.destination then some "Destination is required."
      else if nameFail p.city then some "City is required."
      else if personsFail p.persons then some "Number of persons must be between 1 and 20."
      else if presenceFail p.travelTime then some "Travel time is required."
      else none

end TravelMagazine

namespace TravelMagazine

/-- A concrete fully valid payload (spec §8, scenario 1). -/
def samplePayload : Payload :=
  { fullName := .str "Ada"
    sex := .str "female"
    phone := .str "+234-801-234-5678"
    email := .str "a@example.com"
    destination := .str "Kenya"
    city := .str "Nairobi"
    persons := .num (some 2)
    travelTime := .str "2024-05-01T10:00"
    message := .undef }



/-! ## Persistence and HTTP handlers -/

/-- A stored row of the `registrations` table. The insert binds the
payload fields as given; `persons` is bound as `Number(persons)` and
`message` as `message || ""`. -/
structure RegRecord where
  id : Nat
  full_name : JVal
  sex : JVal
  phone : JVal
  email : JVal
  destination : JVal
  city : JVal
  persons : JVal
  travel_time : JVal
  message : JVal
  created_at : String
deriving DecidableEq, Repr

/-- The registrations store: rows plus the next `AUTOINCREMENT` id. -/
structure DB where
  regs : List RegRecord
  nextId : Nat
deriving DecidableEq, Repr

/-- JSON response bodies produced by the handlers. -/
inductive RespBody where
  | msg : String → RespBody
  | savedId : String → Nat → RespBody
  | rows : List RegRecord → RespBody
  | row : RegRecord → RespBody
deriving DecidableEq, Repr

/-- An HTTP response: status code and JSON body. -/
structure Resp where
  status : Nat
  body : RespBody
deriving DecidableEq, Repr

/-- The `isAdmin` middleware: `req.session && req.session.adminId` must
be truthy. `none` is a request with no session object; `some v` a session
whose `adminId` field holds `v` (`JVal.undef` when never set). -/
def isAdmin : Option JVal → Bool
  | none => false
  | some adminId => truthy adminId

/-- `v || ""`: the `message` default. -/
def jsOrEmpty (v : JVal) : JVal := if truthy v then v else .str ""

/-- The row inserted by `POST /api/registrations` for payload `p`,
assigned id `id` and `new Date().toISOString()` equal to `now`. -/
def mkRecord (p : Payload) (id : Nat) (now : String) : RegRecord :=
  { id := id
    full_name := p.fullName
    sex := p.sex
    phone := p.phone
    email := p.email
    destination := p.destination
    city := p.city
    persons := .num (jsNumber p.persons)
    travel_time := p.travelTime
    message := jsOrEmpty p.message
    created_at := now }

/-- `POST /api/registrations`: validate, then insert and answer
`201 {message:"Saved", id}`. The `(none, none)` branch is unreachable:
`validateRegistration none` is an error. -/
def postRegistration (db : DB) (body : Option Payload) (now : String) : Resp × DB :=
  match validateRegistration body, body with
  | some e, _ => (⟨400, .msg e⟩, db)
  | none, none => (⟨400, .msg "Missing registration data."⟩, db)
  | none, some p =>
      (⟨201, .savedId "Saved" db.nextId⟩,
       ⟨db.regs ++ [mkRecord p db.nextId now], db.nextId + 1⟩)

/-- `Number(req.params.id)` followed by the `Number.isInteger` guard. -/
def parseIdParam (s : String) : Option Int :=
  match strToNumber s with
  | none => none
  | some q => if q.den == 1 then some q.num else none

/-- Insert into a list kept ordered by `created_at` descending. -/
def insertByCreatedAt (r : RegRecord) : List RegRecord → List RegRecord
  | [] => [r]
  | x :: xs =>
      if x.created_at ≤ r.created_at then r :: x :: xs
      else x :: insertByCreatedAt r xs

/-- `ORDER BY created_at DESC` (tie order is unspecified in SQL; the
model uses an insertion sort). -/
def orderByCreatedAtDesc (l : List RegRecord) : List RegRecord :=
  l.foldr insertByCreatedAt []

/-- `GET /api/admin/registrations`: gate, then list all rows. -/
def listRegistrations (sess : Option JVal) (db : DB) : Resp × DB :=
  if !isAdmin sess then (⟨401, .msg "Unauthorized"⟩, db)
  else (⟨200, .rows (orderByCreatedAtDesc db.regs)⟩, db)

/-- `GET /api/admin/registrations/:id`: gate, parse the id, fetch. -/
def getRegistrationById (sess : Option JVal) (db : DB) (idParam : String) : Resp × DB :=
  if !isAdmin sess then (⟨401, .msg "Unauthorized"⟩, db)
  else
    match parseIdParam idParam with
    | none => (⟨400, .msg "Invalid id."⟩, db)
    | some i =>
        match db.regs.find? (fun r => (r.id : Int) == i) with
        | none => (⟨404, .msg "Not found."⟩, db)
        | some r => (⟨200, .row r⟩, db)

/-- The `SET` clause of the `UPDATE`: replaces every validated field and
`message`, leaving `id` and `created_at` alone. -/
def applyUpdate (p : Payload) (r : RegRecord) : RegRecord :=
  { r with
    full_name := p.fullName
    sex := p.sex
    phone := p.phone
    email := p.email
    destination := p.destination
    city := p.city
    persons := .num (jsNumber p.persons)
    travel_time := p.travelTime
    message := jsOrEmpty p.message }

/-- `PUT /api/admin/registrations/:id`: gate, parse the id, validate,
update every matching row; `this.changes === 0` maps to 404. -/
def putRegistration (sess : Option JVal) (db : DB) (idParam : String)
    (body : Option Payload) : Resp × DB :=
  if !isAdmin sess then (⟨401, .msg "Unauthorized"⟩, db)
  else
    match parseIdParam idParam with
    | none => (⟨400, .msg "Invalid id."⟩, db)
    | some i =>
        match validateRegistration body, body with
        | some e, _ => (⟨400, .msg e⟩, db)
        | none, none => (⟨400, .msg "Missing registration data."⟩, db)
        | none, some p =>
            let changes := db.regs.countP (fun r => (r.id : Int) == i)
            let regs2 := db.regs.map (fun r => if (r.id : Int) == i then applyUpdate p r else r)
            if changes == 0 then (⟨404, .msg "Not found."⟩, ⟨regs2, db.nextId⟩)
            else (⟨200, .msg "Updated"⟩, ⟨regs2, db.nextId⟩)

/-- `DELETE /api/admin/registrations/:id`: gate, parse the id, delete
every matching row; `this.changes === 0` maps to 404. -/
def deleteRegistration (sess : Option JVal) (db : DB) (idParam : String) : Resp × DB :=
  if !isAdmin sess then (⟨401, .msg "Unauthorized"⟩, db)
  else
    match parseIdParam idParam with
    | none => (⟨400, .msg "Invalid id."⟩, db)
    | some i =>
        let changes := db.regs.countP (fun r => (r.id : Int) == i)
        let regs2 := db.regs.filter (fun r => !((r.id : Int) == i))
        if changes == 0 then (⟨404, .msg "Not found."⟩, ⟨regs2, db.nextId⟩)
        else (⟨200, .msg "Deleted"⟩, ⟨regs2, db.nextId⟩)

/-! ## Admin login -/

/-- A row of the `admins` table. -/
structure Admin where
  id : Nat
  username : String
  password_hash : String
deriving DecidableEq, Repr

/-- `SELECT id, password_hash FROM admins WHERE username = ?`: a bound
non-string never matches the `TEXT` column. -/
def findAdminByUsername (admins : List Admin) : JVal → Option Admin
  | .str u => admins.find? (fun a => a.username == u)
  | _ => none

/-- Outcome of the login handler: the response, the session assignment
`(adminId, username)` when login succeeded, and how many times
`bcrypt.compare` ran. -/
structure LoginOut where
  resp : Resp
  sessionSet : Option (Nat × JVal)
  compares : Nat
deriving DecidableEq, Repr

/-- `POST /api/admin/login`. `verify` is the abstract
`bcrypt.compare(password, hash)` primitive; the model counts its
invocations: the username-not-found branch returns before any
comparison. -/
def adminLogin (admins : List Admin) (verify : JVal → String → Bool)
    (username password : JVal) : LoginOut :=
  if !truthy username || !truthy password then
    ⟨⟨400, .msg "Username and password required."⟩, none, 0⟩
  else
    match findAdminByUsername admins username with
    | none => ⟨⟨401, .msg "Invalid credentials."⟩, none, 0⟩
    | some a =>
        if verify password a.password_hash then
          ⟨⟨200, .msg "Logged in"⟩, some (a.id, username), 1⟩
        else ⟨⟨401, .msg "Invalid credentials."⟩, none, 1⟩

/-! ## Reachable store states -/

/-- States of the registrations store reachable from an empty database
through the HTTP handlers (only `POST`, `PUT` and `DELETE` write). -/
inductive Reachable : DB → Prop where
  | init : Reachable ⟨[], 1⟩
  | post (db : DB) (body : Option Payload) (now : String) :
      Reachable db → Reachable (postRegistration db body now).2
  | put (sess : Option JVal) (db : DB) (idParam : String) (body : Option Payload) :
      Reachable db → Reachable (putRegistration sess db idParam body).2
  | del (sess : Option JVal) (db : DB) (idParam : String) :
      Reachable db → Reachable (deleteRegistration sess db idParam).2

/-- A stored row satisfies the validation layer's eight rules (the
`message` column has no rule). -/
def recordValid (r : RegRecord) : Bool :=
  !nameFail r.full_name && !presenceFail r.sex && !phoneFail r.phone &&
  !emailFail r.email && !presenceFail r.destination && !nameFail r.city &&
  !personsFail r.persons && !presenceFail r.travel_time

/-! ## Schema initialisation -/

/-- A SQLite table in the schema model: its column names and its rows as
column-name/value association lists. -/
structure Table where
  cols : List String
  rows : List (List (String × String))
deriving DecidableEq, Repr

/-- The two tables owned by the service (`none` = table absent). -/
structure SchemaState where
  registrations : Option Table
  admins : Option Table
deriving DecidableEq, Repr

/-- Columns of the `CREATE TABLE IF NOT EXISTS registrations` statement. -/
def registrationsBaseCols : List String :=
  ["id", "full_name", "sex", "phone", "email", "destination", "city",
   "persons", "travel_time", "message", "created_at"]

/-- Columns of the `CREATE TABLE IF NOT EXISTS admins` statement. -/
def adminsBaseCols : List String := ["id", "username", "password_hash"]

/-- `CREATE TABLE IF NOT EXISTS`: never errors, keeps an existing table. -/
def createTableIfNotExists (t : Option Table) (cols : List String) : Table :=
  match t with
  | some t => t
  | none => ⟨cols, []⟩

/-- `ALTER TABLE ... ADD COLUMN c TEXT NOT NULL DEFAULT dflt`: errors if
the column exists, otherwise appends the column and gives every existing
row the default value. -/
def alterTableAddColumn (t : Table) (c dflt : String) : Except String Table :=
  if c ∈ t.cols then .error "duplicate column name"
  else .ok ⟨t.cols ++ [c], t.rows.map (fun row => row ++ [(c, dflt)])⟩

/-- The `() => undefined` callback in `initializeDatabase`: a failed
`ALTER` is swallowed and the table is left as it was. -/
def runIgnoringError (t : Table) (r : Except String Table) : Table :=
  match r with
  | .ok t2 => t2
  | .error _ => t

/-- Read one column of a row. -/
def lookupCol (row : List (String × String)) (c : String) : Option String :=
  (row.find? (fun e => e.1 == c)).map (fun e => e.2)

/-- `SELECT id FROM admins WHERE username = ?` returned a row. -/
def adminRowExists (t : Table) (u : String) : Bool :=
  t.rows.any (fun row => lookupCol row "username" == some u)

/-- `ensureDefaultAdmin` from `server.js`: hash and insert the default
admin only when the username is absent (`hash` is the result of
`bcrypt.hash` on the configured password). -/
def ensureDefaultAdminRow (u hash : String) (t : Table) : Table :=
  if adminRowExists t u then t
  else ⟨t.cols, t.rows ++ [[("username", u), ("password_hash", hash)]]⟩

/-- The registrations half of `initializeDatabase`: create the table if
absent, then additively migrate the `city` and `email` columns ignoring
already-applied errors. -/
def migrateRegs (t : Option Table) : Table :=
  let regs0 := createTableIfNotExists t registrationsBaseCols
  let regs1 := runIgnoringError regs0 (alterTableAddColumn regs0 "city" "")
  runIgnoringError regs1 (alterTableAddColumn regs1 "email" "")

/-- The admins half of `initializeDatabase`: create the table if absent,
then seed the default admin (`hash` is `bcrypt.hash` of the configured
password). -/
def seedAdmins (u hash : String) (t : Option Table) : Table :=
  ensureDefaultAdminRow u hash (createTableIfNotExists t adminsBaseCols)

/-- `initializeDatabase` from `server.js`: create both tables if absent,
additively migrate the `city` and `email` columns ignoring
already-applied errors, and seed the default admin. `u`/`pw` are the
configured admin credentials and `hashFn` the hashing primitive. -/
def initializeDatabase (u pw : String) (hashFn : String → String)
    (s : SchemaState) : SchemaState :=
  ⟨some (migrateRegs s.registrations), some (seedAdmins u (hashFn pw) s.admins)⟩

/-- A one-admin table for concrete login scenarios. -/
def sampleAdmins : List Admin := [⟨1, "admin", "hash0"⟩]

/-! ## Concrete sample data for witnesses and counterexamples -/

/-- A fixed `new Date().toISOString()` value. -/
def timestamp0 : String := "2024-05-01T10:00:00.000Z"

/-- The store after creating `samplePayload` in an empty database. -/
def sampleDB : DB := (postRegistration ⟨[], 1⟩ (some samplePayload) timestamp0).2

/-- Modelled from the spec (§3 data model): the fixed `sex` enumeration
{female, male, nonbinary, prefer-not}; `server.js` has no such list. -/
def sexEnumeration : List JVal :=
  [.str "female", .str "male", .str "nonbinary", .str "prefer-not"]

/-- A payload valid for every validation rule whose `sex` is outside the
spec's enumeration. -/
def otherSexPayload : Payload := { samplePayload with sex := .str "other" }

/-- The store after creating `otherSexPayload` in an empty database. -/
def otherSexDB : DB := (postRegistration ⟨[], 1⟩ (some otherSexPayload) timestamp0).2

/-- A payload valid for every validation rule whose `persons` is the
string `"3"`. -/
def stringPersonsPayload : Payload := { samplePayload with persons := .str "3" }

/-- The store after creating `stringPersonsPayload` in an empty database. -/
def stringPersonsDB : DB :=
  (postRegistration ⟨[], 1⟩ (some stringPersonsPayload) timestamp0).2

/-- A second valid payload, used as an update body. -/
def updatedPayload : Payload := { samplePayload with city := .str "Mombasa" }

/-! ## Validation rules as a numbered family (spec §4.2) -/

/-- Rule `k` (1-based, as in spec §4.2) holds of payload `p`; each rule
is the negation of the corresponding `if` condition in
`validateRegistration`. Out-of-range indices hold vacuously. -/
def ruleHolds (p : Payload) : Nat → Bool
  | 1 => !nameFail p.fullName
  | 2 => !presenceFail p.sex
  | 3 => !phoneFail p.phone
  | 4 => !emailFail p.email
  | 5 => !presenceFail p.destination
  | 6 => !nameFail p.city
  | 7 => !personsFail p.persons
  | 8 => !presenceFail p.travelTime
  | _ => true

/-- The error message of rule `k` (1-based, as in spec §4.2). -/
def ruleMsg : Nat → String
  | 1 => "Full name is required."
  | 2 => "Sex is required."
  | 3 => "Phone must match +234-801-234-5678 format."
  | 4 => "Email is required."
  | 5 => "Destination is required."
  | 6 => "City is required."
  | 7 => "Number of persons must be between 1 and 20."
  | 8 => "Travel time is required."
  | _ => ""

example : nameFail (.str "Ada") = false := by decide
example : presenceFail (.str "female") = false := by decide
example : phoneFail (.str "+234-801-234-5678") = false := by decide
example : emailFail (.str "a@example.com") = false := by decide
example : nameFail (.str "Nairobi") = false := by decide
example : personsFail (.num (some 2)) = false := by decide
example : validateRegistration (some samplePayload) = none := by decide
example : strToNumber "3" = some 3 := by decide
example : strToNumber "abc" = none := by decide
example : strToNumber "2.5" = some (mkRat 5 2) := by decide
example : phoneMatch "+234-801-234-5678" = true := by decide
example : phoneMatch "0801234567" = false := by decide
example : phoneMatch "+234-801-234-567" = false := by decide
example : phoneMatch "234-801-234-5678" = false := by decide
example :
    validateRegistration (some { samplePayload with phone := .str "0801234567" }) =
      some "Phone must match +234-801-234-5678 format." := by decide

theorem validate_eq_none_iff (p : Payload) :
    validateRegistration (some p) = none ↔
      nameFail p.fullName = false ∧ presenceFail p.sex = false ∧
      phoneFail p.phone = false ∧ emailFail p.email = false ∧
      presenceFail p.destination = false ∧ nameFail p.city = false ∧
      personsFail p.persons = false ∧ presenceFail p.travelTime = false := by
  simp only [validateRegistration]
  split_ifs <;> simp_all

/-- C2: for every payload and every rule `k` in the fixed order, if the
payload violates rule `k` while satisfying rules `1..k-1` then
`validateRegistration` returns exactly rule `k`'s message, and if it
satisfies all eight rules the result is `none`. -/
theorem validateRegistration_first_failure (p : Payload) :
    (∀ k, 1 ≤ k → k ≤ 8 → (∀ j, 1 ≤ j → j < k → ruleHolds p j = true) →
      ruleHolds p k = false →
      validateRegistration (some p) = some (ruleMsg k)) ∧
    ((∀ k, 1 ≤ k → k ≤ 8 → ruleHolds p k = true) →
      validateRegistration (some p) = none) := by
  constructor
  · intro k hk1 hk8 hprev hfail
    interval_cases k
    · simp only [ruleHolds, Bool.not_eq_false'] at hfail
      simp [validateRegistration, ruleMsg, hfail]
    · have h1 := hprev 1 (by omega) (by omega)
      simp only [ruleHolds, Bool.not_eq_true', Bool.not_eq_false'] at h1 hfail
      simp [validateRegistration, ruleMsg, h1, hfail]
    · have h1 := hprev 1 (by omega) (by omega)
      have h2 := hprev 2 (by omega) (by omega)
      simp only [ruleHolds, Bool.not_eq_true', Bool.not_eq_false'] at h1 h2 hfail
      simp [validateRegistration, ruleMsg, h1, h2, hfail]
    · have h1 := hprev 1 (by omega) (by omega)
      have h2 := hprev 2 (by omega) (by omega)
      have h3 := hprev 3 (by omega) (by omega)
      simp only [ruleHolds, Bool.not_eq_true', Bool.not_eq_false'] at h1 h2 h3 hfail
      simp [validateRegistration, ruleMsg, h1, h2, h3, hfail]
    · have h1 := hprev 1 (by omega) (by omega)
      have h2 := hprev 2 (by omega) (by omega)
      have h3 := hprev 3 (by omega) (by omega)
      have h4 := hprev 4 (by omega) (by omega)
      simp only [ruleHolds, Bool.not_eq_true', Bool.not_eq_false'] at h1 h2 h3 h4 hfail
      simp [validateRegistration, ruleMsg, h1, h2, h3, h4, hfail]
    · have h1 := hprev 1 (by omega) (by omega)
      have h2 := hprev 2 (by omega) (by omega)
      have h3 := hprev 3 (by omega) (by omega)
      have h4 := hprev 4 (by omega) (by omega)
      have h5 := hprev 5 (by omega) (by omega)
      simp only [ruleHolds, Bool.not_eq_true', Bool.not_eq_false'] at h1 h2 h3 h4 h5 hfail
      simp [validateRegistration, ruleMsg, h1, h2, h3, h4, h5, hfail]
    · have h1 := hprev 1 (by omega) (by omega)
      have h2 := hprev 2 (by omega) (by omega)
      have h3 := hprev 3 (by omega) (by omega)
      have h4 := hprev 4 (by omega) (by omega)
      have h5 := hprev 5 (by omega) (by omega)
      have h6 := hprev 6 (by omega) (by omega)
      simp only [ruleHolds, Bool.not_eq_true', Bool.not_eq_false'] at h1 h2 h3 h4 h5 h6 hfail
      simp [validateRegistration, ruleMsg, h1, h2, h3, h4, h5, h6, hfail]
    · have h1 := hprev 1 (by omega) (by omega)
      have h2 := hprev 2 (by omega) (by omega)
      have h3 := hprev 3 (by omega) (by omega)
      have h4 := hprev 4 (by omega) (by omega)
      have h5 := hprev 5 (by omega) (by omega)
      have h6 := hprev 6 (by omega) (by omega)
      have h7 := hprev 7 (by omega) (by omega)
      simp only [ruleHolds, Bool.not_eq_true', Bool.not_eq_false'] at h1 h2 h3 h4 h5 h6 h7 hfail
      simp [validateRegistration, ruleMsg, h1, h2, h3, h4, h5, h6, h7, hfail]
  · intro hall
    have h1 := hall 1 (by omega) (by omega)
    have h2 := hall 2 (by omega) (by omega)
    have h3 := hall 3 (by omega) (by omega)
    have h4 := hall 4 (by omega) (by omega)
    have h5 := hall 5 (by omega) (by omega)
    have h6 := hall 6 (by omega) (by omega)
    have h7 := hall 7 (by omega) (by omega)
    have h8 := hall 8 (by omega) (by omega)
    simp only [ruleHolds, Bool.not_eq_true'] at h1 h2 h3 h4 h5 h6 h7 h8
    exact (validate_eq_none_iff p).mpr ⟨h1, h2, h3, h4, h5, h6, h7, h8⟩

/-- Witness for C2: a payload failing rule 2 with rule 1 satisfied gets
rule 2's message, and the fully valid sample payload validates. -/
theorem validateRegistration_first_failure_witness :
    validateRegistration (some { samplePayload with sex := .undef }) =
      some "Sex is required." ∧
    validateRegistration (some samplePayload) = none := by
  constructor
  · exact (validateRegistration_first_failure _).1 2 (by omega) (by omega)
      (by intro j hj1 hj2; interval_cases j; decide) (by decide)
  · exact (validateRegistration_first_failure _).2
      (by intro k hk1 hk8; interval_cases k <;> decide)

/-- C5: a request to any of the four admin-only registration operations
without a valid admin session gets `401 {message:"Unauthorized"}`, the
store is unchanged, and no registration data is returned. -/
theorem requireAdmin_rejects_unauthenticated (sess : Option JVal) (db : DB)
    (idParam : String) (body : Option Payload) (h : isAdmin sess = false) :
    listRegistrations sess db = (⟨401, .msg "Unauthorized"⟩, db) ∧
    getRegistrationById sess db idParam = (⟨401, .msg "Unauthorized"⟩, db) ∧
    putRegistration sess db idParam body = (⟨401, .msg "Unauthorized"⟩, db) ∧
    deleteRegistration sess db idParam = (⟨401, .msg "Unauthorized"⟩, db) := by
  simp [listRegistrations, getRegistrationById, putRegistration,
    deleteRegistration, h]

/-- Witness for C5: a request with no session object at all. -/
theorem requireAdmin_rejects_unauthenticated_witness :
    listRegistrations none ⟨[], 1⟩ = (⟨401, .msg "Unauthorized"⟩, (⟨[], 1⟩ : DB)) ∧
    getRegistrationById none ⟨[], 1⟩ "1" = (⟨401, .msg "Unauthorized"⟩, (⟨[], 1⟩ : DB)) ∧
    putRegistration none ⟨[], 1⟩ "1" none = (⟨401, .msg "Unauthorized"⟩, (⟨[], 1⟩ : DB)) ∧
    deleteRegistration none ⟨[], 1⟩ "1" = (⟨401, .msg "Unauthorized"⟩, (⟨[], 1⟩ : DB)) :=
  requireAdmin_rejects_unauthenticated none ⟨[], 1⟩ "1" none rfl

/-- C6: with both fields present, an unknown username yields the generic
`401 {message:"Invalid credentials."}` with zero hash comparisons, and a
known username with a failing password yields the identical response
after one comparison; neither reveals which field was wrong. -/
theorem adminLogin_uniform_invalid_credentials (admins : List Admin)
    (verify : JVal → String → Bool) (u pw : JVal)
    (hu : truthy u = true) (hp : truthy pw = true) :
    (findAdminByUsername admins u = none →
      adminLogin admins verify u pw =
        ⟨⟨401, .msg "Invalid credentials."⟩, none, 0⟩) ∧
    (∀ a, findAdminByUsername admins u = some a →
      verify pw a.password_hash = false →
      adminLogin admins verify u pw =
        ⟨⟨401, .msg "Invalid credentials."⟩, none, 1⟩) := by
  constructor
  · intro hfind
    simp [adminLogin, hu, hp, hfind]
  · intro a hfind hv
    simp [adminLogin, hu, hp, hfind, hv]



/-- Witness for C6: both 401 branches at concrete inputs. -/
theorem adminLogin_uniform_invalid_credentials_witness :
    adminLogin sampleAdmins (fun _ _ => false) (.str "ghost") (.str "pw") =
      ⟨⟨401, .msg "Invalid credentials."⟩, none, 0⟩ ∧
    adminLogin sampleAdmins (fun _ _ => false) (.str "admin") (.str "pw") =
      ⟨⟨401, .msg "Invalid credentials."⟩, none, 1⟩ := by
  constructor
  · exact (adminLogin_uniform_invalid_credentials sampleAdmins _ _ _
      (by decide) (by decide)).1 (by decide)
  · exact (adminLogin_uniform_invalid_credentials sampleAdmins _ _ _
      (by decide) (by decide)).2 ⟨1, "admin", "hash0"⟩ (by decide) rfl

/-- C8: `persons` boundary — 1 and 20 accepted, 0, 21, `"abc"`, `2.5`
(number or string) rejected with the persons message; with the other
rules satisfied, validation succeeds exactly when `Number(persons)` is
an integer in `[1, 20]`. -/
theorem persons_boundary :
    validateRegistration (some { samplePayload with persons := .num (some 1) }) = none ∧
    validateRegistration (some { samplePayload with persons := .num (some 20) }) = none ∧
    validateRegistration (some { samplePayload with persons := .num (some 0) }) =
      some "Number of persons must be between 1 and 20." ∧
    validateRegistration (some { samplePayload with persons := .num (some 21) }) =
      some "Number of persons must be between 1 and 20." ∧
    validateRegistration (some { samplePayload with persons := .str "abc" }) =
      some "Number of persons must be between 1 and 20." ∧
    validateRegistration (some { samplePayload with persons := .num (some (mkRat 5 2)) }) =
      some "Number of persons must be between 1 and 20." ∧
    validateRegistration (some { samplePayload with persons := .str "2.5" }) =
      some "Number of persons must be between 1 and 20." ∧
    (∀ p : Payload, nameFail p.fullName = false → presenceFail p.sex = false →
      phoneFail p.phone = false → emailFail p.email = false →
      presenceFail p.destination = false → nameFail p.city = false →
      presenceFail p.travelTime = false →
      ((validateRegistration (some p) = none ↔ personsOk (jsNumber p.persons) = true) ∧
       (personsOk (jsNumber p.persons) = false →
        validateRegistration (some p) = some "Number of persons must be between 1 and 20."))) := by
  refine ⟨by decide, by decide, by decide, by decide, by decide, by decide, by decide, ?_⟩
  intro p h1 h2 h3 h4 h5 h6 h8
  constructor
  · rw [validate_eq_none_iff]
    simp [personsFail, h1, h2, h3, h4, h5, h6, h8]
  · intro h7
    simp [validateRegistration, personsFail, h1, h2, h3, h4, h5, h6, h7]

/-- Witness for C8: the universal part applied to the sample payload. -/
theorem persons_boundary_witness :
    validateRegistration (some samplePayload) = none := by
  have h := persons_boundary.2.2.2.2.2.2.2 samplePayload
    (by decide) (by decide) (by decide) (by decide) (by decide) (by decide) (by decide)
  exact h.1.mpr (by decide)

/-! ## State-transition lemmas for the write handlers -/

theorem postRegistration_state (db : DB) (body : Option Payload) (now : String) :
    (postRegistration db body now).2 = db ∨
    ∃ p, body = some p ∧ validateRegistration (some p) = none ∧
      (postRegistration db body now).2 =
        ⟨db.regs ++ [mkRecord p db.nextId now], db.nextId + 1⟩ := by
  rcases body with _ | p
  · left
    simp [postRegistration, validateRegistration]
  · rcases hv : validateRegistration (some p) with _ | e
    · right
      exact ⟨p, rfl, hv, by simp [postRegistration, hv]⟩
    · left
      simp [postRegistration, hv]

theorem putRegistration_state (sess : Option JVal) (db : DB) (idParam : String)
    (body : Option Payload) :
    (putRegistration sess db idParam body).2 = db ∨
    ∃ p i, body = some p ∧ validateRegistration (some p) = none ∧
      parseIdParam idParam = some i ∧
      (putRegistration sess db idParam body).2 =
        ⟨db.regs.map (fun r => if (r.id : Int) == i then applyUpdate p r else r),
         db.nextId⟩ := by
  cases hadm : isAdmin sess
  · left
    simp [putRegistration, hadm]
  · rcases hpid : parseIdParam idParam with _ | i
    · left
      simp [putRegistration, hadm, hpid]
    · rcases body with _ | p
      · left
        simp [putRegistration, hadm, hpid, validateRegistration]
      · rcases hv : validateRegistration (some p) with _ | e
        · right
          refine ⟨p, i, rfl, hv, rfl, ?_⟩
          simp only [putRegistration, hadm, hpid, hv]
          by_cases hc : db.regs.countP (fun r => (r.id : Int) == i) == 0 <;> simp [hc]
        · left
          simp [putRegistration, hadm, hpid, hv]

theorem deleteRegistration_state (sess : Option JVal) (db : DB) (idParam : String) :
    (deleteRegistration sess db idParam).2 = db ∨
    ∃ i, parseIdParam idParam = some i ∧
      (deleteRegistration sess db idParam).2 =
        ⟨db.regs.filter (fun r => !((r.id : Int) == i)), db.nextId⟩ := by
  cases hadm : isAdmin sess
  · left
    simp [deleteRegistration, hadm]
  · rcases hpid : parseIdParam idParam with _ | i
    · left
      simp [deleteRegistration, hadm, hpid]
    · right
      refine ⟨i, rfl, ?_⟩
      simp only [deleteRegistration, hadm, hpid]
      by_cases hc : db.regs.countP (fun r => (r.id : Int) == i) == 0 <;> simp [hc]

theorem jsNumber_num (n : JNum) : jsNumber (.num n) = n := rfl

theorem recordValid_mkRecord (p : Payload) (id : Nat) (now : String)
    (hv : validateRegistration (some p) = none) :
    recordValid (mkRecord p id now) = true := by
  rw [validate_eq_none_iff] at hv
  obtain ⟨h1, h2, h3, h4, h5, h6, h7, h8⟩ := hv
  have h7q : personsOk (jsNumber p.persons) = true := by
    simpa [personsFail] using h7
  simp [recordValid, mkRecord, personsFail, jsNumber_num, h1, h2, h3, h4, h5, h6, h7q, h8]

theorem recordValid_applyUpdate (p : Payload) (r : RegRecord)
    (hv : validateRegistration (some p) = none) :
    recordValid (applyUpdate p r) = true := by
  rw [validate_eq_none_iff] at hv
  obtain ⟨h1, h2, h3, h4, h5, h6, h7, h8⟩ := hv
  have h7q : personsOk (jsNumber p.persons) = true := by
    simpa [personsFail] using h7
  simp [recordValid, applyUpdate, personsFail, jsNumber_num, h1, h2, h3, h4, h5, h6, h7q, h8]

theorem truthy_sex_of_recordValid (r : RegRecord) (h : recordValid r = true) :
    truthy r.sex = true := by
  simp only [recordValid, Bool.and_eq_true, Bool.not_eq_true'] at h
  have h2 : presenceFail r.sex = false := h.1.1.1.1.1.1.2
  simp only [presenceFail, Bool.not_eq_false'] at h2
  exact h2

/-- C3 (amended): every registration stored in a reachable store state
satisfies the Validation Layer's rules as of its last write; in
particular its `sex` field is non-empty — though not necessarily a
member of the spec's fixed enumeration, which the server never checks. -/
theorem reachable_records_satisfy_validation (db : DB) (h : Reachable db) :
    ∀ r ∈ db.regs, recordValid r = true ∧ truthy r.sex = true := by
  induction h with
  | init =>
      intro r hr
      simp at hr
  | post db body now hdb ih =>
      intro r hr
      rcases postRegistration_state db body now with heq | ⟨p, hbody, hv, heq⟩
      · rw [heq] at hr
        exact ih r hr
      · rw [heq] at hr
        rcases List.mem_append.mp hr with hold | hnew
        · exact ih r hold
        · have : r = mkRecord p db.nextId now := by simpa using hnew
          subst this
          have hval := recordValid_mkRecord p db.nextId now hv
          exact ⟨hval, truthy_sex_of_recordValid _ hval⟩
  | put sess db idParam body hdb ih =>
      intro r hr
      rcases putRegistration_state sess db idParam body with heq | ⟨p, i, hbody, hv, hpid, heq⟩
      · rw [heq] at hr
        exact ih r hr
      · rw [heq] at hr
        simp only [List.mem_map] at hr
        obtain ⟨a, ha, heqr⟩ := hr
        by_cases hid : ((a.id : Int) == i) = true
        · rw [hid] at heqr
          simp only [if_true] at heqr
          subst heqr
          have hval := recordValid_applyUpdate p a hv
          exact ⟨hval, truthy_sex_of_recordValid _ hval⟩
        · rw [Bool.not_eq_true] at hid
          rw [hid] at heqr
          simp only [Bool.false_eq_true, if_false] at heqr
          subst heqr
          exact ih a ha
  | del sess db idParam hdb ih =>
      intro r hr
      rcases deleteRegistration_state sess db idParam with heq | ⟨i, hpid, heq⟩
      · rw [heq] at hr
        exact ih r hr
      · rw [heq] at hr
        exact ih r (List.mem_of_mem_filter hr)

/-- Witness for C3 (amended): the record stored by creating the sample
payload in an empty store is valid and has a non-empty sex. -/
theorem reachable_records_satisfy_validation_witness :
    recordValid (mkRecord samplePayload 1 timestamp0) = true ∧
    truthy (mkRecord samplePayload 1 timestamp0).sex = true :=
  reachable_records_satisfy_validation sampleDB
    (Reachable.post ⟨[], 1⟩ (some samplePayload) timestamp0 Reachable.init)
    (mkRecord samplePayload 1 timestamp0) (by decide)

/-- C3 counterexample: creating a fully valid payload whose `sex` is
`"other"` reaches a store state holding a registration whose `sex` is
outside the spec's fixed enumeration — the server only checks presence. -/
theorem sex_enumeration_counterexample :
    Reachable otherSexDB ∧
    otherSexDB.regs.map (fun r => r.sex) = [.str "other"] ∧
    (JVal.str "other") ∉ sexEnumeration := by
  refine ⟨Reachable.post ⟨[], 1⟩ (some otherSexPayload) timestamp0 Reachable.init,
    by decide, by decide⟩

/-- C1 (amended): for every payload satisfying all eight validation
rules, create answers `201 {message:"Saved", id}` with the next id, and
an authenticated fetch of that id returns the stored record, whose
`fullName`, `sex`, `phone`, `email`, `destination`, `city` and
`travelTime` equal the input, whose `persons` is the numeric coercion
`Number(persons)` of the input, whose `message` is the input when truthy
and `""` otherwise, and whose `id` and `createdAt` are server-assigned. -/
theorem create_then_get_roundtrip (db : DB) (p : Payload) (now idParam : String)
    (sess : Option JVal)
    (hadm : isAdmin sess = true)
    (hv : validateRegistration (some p) = none)
    (hfresh : ∀ r ∈ db.regs, r.id ≠ db.nextId)
    (hpid : parseIdParam idParam = some (db.nextId : Int)) :
    (postRegistration db (some p) now).1 = ⟨201, .savedId "Saved" db.nextId⟩ ∧
    getRegistrationById sess (postRegistration db (some p) now).2 idParam =
      ((⟨200, .row (mkRecord p db.nextId now)⟩ : Resp),
       (postRegistration db (some p) now).2) ∧
    (mkRecord p db.nextId now).full_name = p.fullName ∧
    (mkRecord p db.nextId now).sex = p.sex ∧
    (mkRecord p db.nextId now).phone = p.phone ∧
    (mkRecord p db.nextId now).email = p.email ∧
    (mkRecord p db.nextId now).destination = p.destination ∧
    (mkRecord p db.nextId now).city = p.city ∧
    (mkRecord p db.nextId now).persons = .num (jsNumber p.persons) ∧
    (mkRecord p db.nextId now).travel_time = p.travelTime ∧
    (mkRecord p db.nextId now).message = jsOrEmpty p.message ∧
    (mkRecord p db.nextId now).id = db.nextId ∧
    (mkRecord p db.nextId now).created_at = now := by
  have hpost : postRegistration db (some p) now =
      (⟨201, .savedId "Saved" db.nextId⟩,
       ⟨db.regs ++ [mkRecord p db.nextId now], db.nextId + 1⟩) := by
    simp [postRegistration, hv]
  have hnone : db.regs.find? (fun r => (r.id : Int) == ((db.nextId : Nat) : Int)) = none := by
    rw [List.find?_eq_none]
    intro x hx
    simp only [beq_iff_eq, Nat.cast_inj]
    exact hfresh x hx
  have hfind : (db.regs ++ [mkRecord p db.nextId now]).find?
      (fun r => (r.id : Int) == ((db.nextId : Nat) : Int)) =
      some (mkRecord p db.nextId now) := by
    rw [List.find?_append, hnone]
    simp [mkRecord]
  refine ⟨by rw [hpost], ?_, rfl, rfl, rfl, rfl, rfl, rfl, rfl, rfl, rfl, rfl, rfl⟩
  rw [hpost]
  simp [getRegistrationById, hadm, hpid, hfind]

/-- Witness for C1 (amended): create then fetch the sample payload in an
empty store. -/
theorem create_then_get_roundtrip_witness :
    (postRegistration ⟨[], 1⟩ (some samplePayload) timestamp0).1 =
      ⟨201, .savedId "Saved" 1⟩ ∧
    getRegistrationById (some (.num (some 1)))
        (postRegistration ⟨[], 1⟩ (some samplePayload) timestamp0).2 "1" =
      ((⟨200, .row (mkRecord samplePayload 1 timestamp0)⟩ : Resp),
       (postRegistration ⟨[], 1⟩ (some samplePayload) timestamp0).2) := by
  have h := create_then_get_roundtrip ⟨[], 1⟩ samplePayload timestamp0 "1"
    (some (.num (some 1))) (by decide) (by decide)
    (by intro r hr; simp at hr) (by decide)
  exact ⟨h.1, h.2.1⟩

/-- C1 counterexample: the payload with `persons = "3"` satisfies all
eight rules and creates with 201, but the record returned by the
subsequent fetch stores `persons` as the number 3, which differs from
the input string — so not every fetched field equals the input. -/
theorem create_roundtrip_counterexample :
    validateRegistration (some stringPersonsPayload) = none ∧
    (postRegistration ⟨[], 1⟩ (some stringPersonsPayload) timestamp0).1 =
      ⟨201, .savedId "Saved" 1⟩ ∧
    (getRegistrationById (some (.num (some 1))) stringPersonsDB "1").1 =
      ⟨200, .row (mkRecord stringPersonsPayload 1 timestamp0)⟩ ∧
    (mkRecord stringPersonsPayload 1 timestamp0).persons ≠
      stringPersonsPayload.persons := by
  exact ⟨by decide, by decide, by decide, by decide⟩

/-- C4: an authenticated update of an existing id with a valid body
answers `200 {message:"Updated"}`; the matching row is fully replaced
(all validated fields and `message`) with its `id` and `created_at`
untouched, and every other row is unchanged. -/
theorem update_full_replace (sess : Option JVal) (db : DB) (idParam : String)
    (p : Payload) (i : Int) (r0 : RegRecord)
    (hadm : isAdmin sess = true) (hpid : parseIdParam idParam = some i)
    (hv : validateRegistration (some p) = none)
    (hr0 : r0 ∈ db.regs) (hid : (r0.id : Int) = i) :
    putRegistration sess db idParam (some p) =
      (⟨200, .msg "Updated"⟩,
       ⟨db.regs.map (fun r => if (r.id : Int) == i then applyUpdate p r else r),
        db.nextId⟩) ∧
    List.Forall₂ (fun old new =>
        ((old.id : Int) = i → new = applyUpdate p old) ∧
        ((old.id : Int) ≠ i → new = old))
      db.regs (putRegistration sess db idParam (some p)).2.regs ∧
    (∀ r : RegRecord, (applyUpdate p r).id = r.id ∧
      (applyUpdate p r).created_at = r.created_at) := by
  have hpos : 0 < db.regs.countP (fun r => (r.id : Int) == i) :=
    List.countP_pos_iff.mpr ⟨r0, hr0, by simp [hid]⟩
  have hc : (db.regs.countP (fun r => (r.id : Int) == i) == 0) = false := by
    simp only [beq_eq_false_iff_ne]
    omega
  have heq : putRegistration sess db idParam (some p) =
      (⟨200, .msg "Updated"⟩,
       ⟨db.regs.map (fun r => if (r.id : Int) == i then applyUpdate p r else r),
        db.nextId⟩) := by
    simp [putRegistration, hadm, hpid, hv, hc]
  refine ⟨heq, ?_, fun r => ⟨rfl, rfl⟩⟩
  rw [heq]
  rw [show ((⟨200, .msg "Updated"⟩,
      ⟨db.regs.map (fun r => if (r.id : Int) == i then applyUpdate p r else r),
       db.nextId⟩) : Resp × DB).2.regs =
      db.regs.map (fun r => if (r.id : Int) == i then applyUpdate p r else r) from rfl]
  rw [List.forall₂_map_right_iff, List.forall₂_same]
  intro x hx
  constructor
  · intro hxi
    simp [hxi]
  · intro hxi
    rw [if_neg]
    simp only [beq_iff_eq]
    exact hxi

/-- Witness for C4: update the single record of the sample store. -/
theorem update_full_replace_witness :
    putRegistration (some (.num (some 1))) sampleDB "1" (some updatedPayload) =
      (⟨200, .msg "Updated"⟩,
       ⟨sampleDB.regs.map
          (fun r => if (r.id : Int) == (1 : Int) then applyUpdate updatedPayload r else r),
        sampleDB.nextId⟩) :=
  (update_full_replace (some (.num (some 1))) sampleDB "1" updatedPayload 1
    (mkRecord samplePayload 1 timestamp0) (by decide) (by decide) (by decide)
    (by decide) (by decide)).1

/-- C7: an authenticated `PUT` on a nonexistent id with a valid body
answers `404 {message:"Not found."}` from the zero-affected-row result
and leaves the store unchanged; `DELETE` on a nonexistent id answers
404; and `DELETE` on an existing id answers `200 {message:"Deleted"}`,
after which fetching the same id answers 404 — exactly the rows with
that id are gone and all others survive. -/
theorem nonexistent_id_and_delete :
    (∀ (sess : Option JVal) (db : DB) (idParam : String) (p : Payload) (i : Int),
      isAdmin sess = true → parseIdParam idParam = some i →
      validateRegistration (some p) = none →
      (∀ r ∈ db.regs, (r.id : Int) ≠ i) →
      putRegistration sess db idParam (some p) = (⟨404, .msg "Not found."⟩, db)) ∧
    (∀ (sess : Option JVal) (db : DB) (idParam : String) (i : Int),
      isAdmin sess = true → parseIdParam idParam = some i →
      (∀ r ∈ db.regs, (r.id : Int) ≠ i) →
      deleteRegistration sess db idParam = (⟨404, .msg "Not found."⟩, db)) ∧
    (∀ (sess : Option JVal) (db : DB) (idParam : String) (i : Int) (r0 : RegRecord),
      isAdmin sess = true → parseIdParam idParam = some i →
      r0 ∈ db.regs → (r0.id : Int) = i →
      (deleteRegistration sess db idParam).1 = ⟨200, .msg "Deleted"⟩ ∧
      (getRegistrationById sess (deleteRegistration sess db idParam).2 idParam).1 =
        ⟨404, .msg "Not found."⟩ ∧
      (∀ r ∈ db.regs, (r.id : Int) ≠ i →
        r ∈ (deleteRegistration sess db idParam).2.regs) ∧
      (∀ r ∈ (deleteRegistration sess db idParam).2.regs,
        r ∈ db.regs ∧ (r.id : Int) ≠ i)) := by
  refine ⟨?_, ?_, ?_⟩
  · intro sess db idParam p i hadm hpid hv hne
    have hc : (db.regs.countP (fun r => (r.id : Int) == i) == 0) = true := by
      simp only [beq_iff_eq]
      rw [List.countP_eq_zero]
      intro a ha
      simp only [beq_iff_eq]
      exact hne a ha
    simp [putRegistration, hadm, hpid, hv, hc]
    rw [List.map_congr_left (g := fun r => r) (fun a ha => if_neg (hne a ha)),
      List.map_id']
  · intro sess db idParam i hadm hpid hne
    have hc : (db.regs.countP (fun r => (r.id : Int) == i) == 0) = true := by
      simp only [beq_iff_eq]
      rw [List.countP_eq_zero]
      intro a ha
      simp only [beq_iff_eq]
      exact hne a ha
    have hfil : db.regs.filter (fun r => !((r.id : Int) == i)) = db.regs := by
      rw [List.filter_eq_self]
      intro a ha
      simp only [Bool.not_eq_true', beq_eq_false_iff_ne]
      exact hne a ha
    simp [deleteRegistration, hadm, hpid, hc, hfil]
  · intro sess db idParam i r0 hadm hpid hr0 hid
    have hpos : 0 < db.regs.countP (fun r => (r.id : Int) == i) :=
      List.countP_pos_iff.mpr ⟨r0, hr0, by simp [hid]⟩
    have hc : (db.regs.countP (fun r => (r.id : Int) == i) == 0) = false := by
      simp only [beq_eq_false_iff_ne]
      omega
    have hdel : deleteRegistration sess db idParam =
        (⟨200, .msg "Deleted"⟩,
         ⟨db.regs.filter (fun r => !((r.id : Int) == i)), db.nextId⟩) := by
      simp [deleteRegistration, hadm, hpid, hc]
    refine ⟨by rw [hdel], ?_, ?_, ?_⟩
    · rw [hdel]
      have hfind : (db.regs.filter (fun r => !((r.id : Int) == i))).find?
          (fun r => (r.id : Int) == i) = none := by
        rw [List.find?_eq_none]
        intro x hx
        have := (List.mem_filter.mp hx).2
        simp only [Bool.not_eq_true', beq_eq_false_iff_ne] at this
        simp only [beq_iff_eq]
        exact this
      simp [getRegistrationById, hadm, hpid, hfind]
    · intro r hr hri
      rw [hdel]
      refine List.mem_filter.mpr ⟨hr, ?_⟩
      simp only [Bool.not_eq_true', beq_eq_false_iff_ne]
      exact hri
    · intro r hr
      rw [hdel] at hr
      have h1 := (List.mem_filter.mp hr).1
      have h2 := (List.mem_filter.mp hr).2
      simp only [Bool.not_eq_true', beq_eq_false_iff_ne] at h2
      exact ⟨h1, h2⟩

/-- Witness for C7: a 404 `PUT` on id 999, then delete id 1 from the
sample store and observe the subsequent fetch's 404. -/
theorem nonexistent_id_and_delete_witness :
    putRegistration (some (.num (some 1))) sampleDB "999" (some samplePayload) =
      (⟨404, .msg "Not found."⟩, sampleDB) ∧
    (deleteRegistration (some (.num (some 1))) sampleDB "1").1 =
      ⟨200, .msg "Deleted"⟩ ∧
    (getRegistrationById (some (.num (some 1)))
        (deleteRegistration (some (.num (some 1))) sampleDB "1").2 "1").1 =
      ⟨404, .msg "Not found."⟩ := by
  have h1 := nonexistent_id_and_delete.1 (some (.num (some 1))) sampleDB "999"
    samplePayload 999 (by decide) (by decide) (by decide) (by decide)
  have h3 := nonexistent_id_and_delete.2.2 (some (.num (some 1))) sampleDB "1" 1
    (mkRecord samplePayload 1 timestamp0) (by decide) (by decide) (by decide) (by decide)
  exact ⟨h1, h3.1, h3.2.1⟩

/-! ## Schema idempotence lemmas -/

theorem alter_noop (t : Table) (c d : String) (h : c ∈ t.cols) :
    runIgnoringError t (alterTableAddColumn t c d) = t := by
  simp [alterTableAddColumn, runIgnoringError, h]

theorem alter_mem_self (t : Table) (c d : String) :
    c ∈ (runIgnoringError t (alterTableAddColumn t c d)).cols := by
  by_cases h : c ∈ t.cols
  · simp [alterTableAddColumn, runIgnoringError, h]
  · simp [alterTableAddColumn, runIgnoringError, h]

theorem alter_mem_mono (t : Table) (c d c2 : String) (h : c2 ∈ t.cols) :
    c2 ∈ (runIgnoringError t (alterTableAddColumn t c d)).cols := by
  by_cases hc : c ∈ t.cols
  · simpa [alterTableAddColumn, runIgnoringError, hc] using h
  · simp [alterTableAddColumn, runIgnoringError, hc, List.mem_append, h]

theorem ensureDefaultAdminRow_idem (u h : String) (t : Table) :
    ensureDefaultAdminRow u h (ensureDefaultAdminRow u h t) =
      ensureDefaultAdminRow u h t := by
  by_cases hex : adminRowExists t u = true
  · simp [ensureDefaultAdminRow, hex]
  · have hnew : adminRowExists
        ⟨t.cols, t.rows ++ [[("username", u), ("password_hash", h)]]⟩ u = true := by
      simp [adminRowExists, lookupCol]
    simp [ensureDefaultAdminRow, hex, hnew]

theorem migrateRegs_some_noop (r : Table)
    (hcity : "city" ∈ r.cols) (hemail : "email" ∈ r.cols) :
    migrateRegs (some r) = r := by
  unfold migrateRegs
  simp only [createTableIfNotExists]
  rw [alter_noop r "city" "" hcity]
  rw [alter_noop r "email" "" hemail]

theorem migrateRegs_idem (t : Option Table) :
    migrateRegs (some (migrateRegs t)) = migrateRegs t := by
  refine migrateRegs_some_noop (migrateRegs t) ?_ ?_
  · unfold migrateRegs
    exact alter_mem_mono _ "email" "" "city" (alter_mem_self _ "city" "")
  · unfold migrateRegs
    exact alter_mem_self _ "email" ""

theorem seedAdmins_idem (u h : String) (t : Option Table) :
    seedAdmins u h (some (seedAdmins u h t)) = seedAdmins u h t := by
  unfold seedAdmins
  simp only [createTableIfNotExists]
  exact ensureDefaultAdminRow_idem u h (createTableIfNotExists t adminsBaseCols)

/-- C9: schema initialisation is idempotent — re-running
`initializeDatabase` on the state left by a previous run changes
nothing: no error escapes (already-applied migrations are swallowed), no
duplicate tables or columns appear, and no data is lost. -/
theorem initializeDatabase_idempotent (u pw : String) (hashFn : String → String)
    (s : SchemaState) :
    initializeDatabase u pw hashFn (initializeDatabase u pw hashFn s) =
      initializeDatabase u pw hashFn s := by
  simp [initializeDatabase, migrateRegs_idem, seedAdmins_idem]

/-- C10: a payload whose `persons` is a string coercing to an integer in
`[1, 20]` passes validation (other rules permitting), and both the
create insert and the update `SET` clause store the coerced number, not
the original string; stored `persons` is always a number. -/
theorem persons_string_coerced_on_store (p : Payload) (s : String) (q : ℚ)
    (hs : p.persons = .str s) (hq : strToNumber s = some q)
    (hok : personsOk (some q) = true)
    (h1 : nameFail p.fullName = false) (h2 : presenceFail p.sex = false)
    (h3 : phoneFail p.phone = false) (h4 : emailFail p.email = false)
    (h5 : presenceFail p.destination = false) (h6 : nameFail p.city = false)
    (h8 : presenceFail p.travelTime = false) :
    validateRegistration (some p) = none ∧
    (∀ (db : DB) (now : String),
      postRegistration db (some p) now =
        (⟨201, .savedId "Saved" db.nextId⟩,
         ⟨db.regs ++ [mkRecord p db.nextId now], db.nextId + 1⟩)) ∧
    (∀ (id : Nat) (now : String), (mkRecord p id now).persons = .num (some q)) ∧
    (∀ r : RegRecord, (applyUpdate p r).persons = .num (some q)) ∧
    (∀ (p2 : Payload) (id : Nat) (now : String),
      ∃ n : JNum, (mkRecord p2 id now).persons = .num n) := by
  have hv : validateRegistration (some p) = none := by
    rw [validate_eq_none_iff]
    exact ⟨h1, h2, h3, h4, h5, h6, by simp [personsFail, hs, jsNumber, hq, hok], h8⟩
  refine ⟨hv, ?_, ?_, ?_, ?_⟩
  · intro db now
    simp [postRegistration, hv]
  · intro id now
    simp [mkRecord, hs, jsNumber, hq]
  · intro r
    simp [applyUpdate, hs, jsNumber, hq]
  · intro p2 id now
    exact ⟨jsNumber p2.persons, rfl⟩

/-- Witness for C10: `persons = "3"` validates and is stored as the
number 3. -/
theorem persons_string_coerced_on_store_witness :
    validateRegistration (some { samplePayload with persons := .str "3" }) = none ∧
    (mkRecord { samplePayload with persons := .str "3" } 1 timestamp0).persons =
      .num (some 3) := by
  have h := persons_string_coerced_on_store
    { samplePayload with persons := .str "3" } "3" 3 rfl (by decide) (by decide)
    (by decide) (by decide) (by decide) (by decide) (by decide) (by decide) (by decide)
  exact ⟨h.1, h.2.2.1 1 timestamp0⟩

end TravelMagazine
